import Mathlib

/-!
Shallow embedding of the Gemini API wrapper module (`gemini_wrapper.py`) of the
Multi-Task-LLM-API repository, together with proofs about its retry/backoff and
error-classification behaviour.

Python strings are modelled as Lean `String`s; `str.lower()` is modelled on the
character list (the repository only ever deals in ASCII indicator phrases), the
Python substring test `needle in hay` becomes list-infix on the underlying
character lists, and a raised Python exception becomes the `error` branch of an
`Except`.  The `tenacity` retry decorator
`@retry(retry=retry_on_rate_limit, stop=stop_after_attempt(5),
        wait=wait_exponential(multiplier=1, min=1, max=60), reraise=True)`
is modelled by an explicit loop over attempt outcomes; the upstream LangChain
client is an oracle parameter giving the outcome of each attempt.
-/

/-- Kind of a Python exception object, as far as the module distinguishes them:
its own two custom classes, `ValueError`, and anything else. -/
inductive ExcKind where
  | rateLimitError
  | geminiAPIError
  | valueError
  | other
deriving DecidableEq, Repr

/-- A Python exception as the module observes it: `msg` models `str(e)`;
`code` models an optional structured status attribute (e.g. `e.code` on a
google API error object).  The wrapper's classifiers never read `code` —
having it in the model lets us state (and refute) the spec's claim that a
structured status field is inspected. -/
structure PyException where
  code : Option Nat
  kind : ExcKind
  msg : String
deriving DecidableEq, Repr

/-- Python `s.lower()` (ASCII). -/
def pyLower (s : String) : String := ⟨s.data.map Char.toLower⟩

/-- Python substring test `needle in hay`. -/
def pyIn (needle hay : String) : Bool := decide (needle.data <:+: hay.data)

/-- The `rate_limit_indicators` list of `is_rate_limit_error`
(`gemini_wrapper.py`, lines 24-31), verbatim. -/
def rate_limit_indicators : List String :=
  ["rate limit exceeded",
   "quota exceeded",
   "resource exhausted",
   "too many requests",
   "429",
   "rate_limit_exceeded"]

/-- `is_rate_limit_error(exception)` (`gemini_wrapper.py`, lines 21-33):
lower-case `str(exception)` and test each indicator for substring occurrence. -/
def is_rate_limit_error (e : PyException) : Bool :=
  let error_message := pyLower e.msg
  rate_limit_indicators.any (fun indicator => pyIn indicator error_message)

/-- The `retryable_indicators` list of `is_retryable_error`
(`gemini_wrapper.py`, lines 38-52), verbatim. -/
def retryable_indicators : List String :=
  ["rate limit exceeded",
   "quota exceeded",
   "resource exhausted",
   "too many requests",
   "temporary failure",
   "service unavailable",
   "timeout",
   "connection error",
   "429",
   "500",
   "502",
   "503",
   "504"]

/-- `is_retryable_error(exception)` (`gemini_wrapper.py`, lines 35-54). -/
def is_retryable_error (e : PyException) : Bool :=
  let error_message := pyLower e.msg
  retryable_indicators.any (fun indicator => pyIn indicator error_message)

/-- `retry_on_rate_limit(retry_state)` (`gemini_wrapper.py`, lines 56-61):
if the attempt's outcome failed, retry exactly when `is_retryable_error` says
so; a successful outcome is never retried. -/
def retry_on_rate_limit (outcome : Except PyException String) : Bool :=
  match outcome with
  | .error e => is_retryable_error e
  | .ok _ => false

/-- `tenacity.wait_exponential(multiplier=1, min=1, max=60)` evaluated at a
given (1-based) attempt number: `max(max(0, min), min(multiplier * 2^(n-1), max))`. -/
def wait_exponential (attempt_number : Nat) : Nat :=
  max (max 0 1) (min (1 * 2 ^ (attempt_number - 1)) 60)

/-- Observable outcome of one decorated invocation: the value returned or the
exception finally raised, the backoff sleeps performed (in order), the number
of attempts made, and the number of upstream (LLM) calls issued. -/
structure RunResult where
  result : Except PyException String
  waits : List Nat
  attempts : Nat
  upstreamCalls : Nat
deriving Repr

/-- The `tenacity` retry loop.  `body i` is the outcome of the `i`-th attempt
of the decorated function together with the number of upstream calls that
attempt issued; `n` is the current 1-based attempt number and `left` the
number of further attempts `stop_after_attempt 5` still allows (so `left =
5 - n`, and `left = 0` is exactly the stop condition `attempt_number >= 5`).
With `reraise=True` a stopped or non-retryable failing outcome raises the
last attempt's own exception unchanged. -/
def tenacityLoop (body : Nat → Except PyException String × Nat)
    (left n : Nat) (waits : List Nat) (calls : Nat) : RunResult :=
  let r := body n
  if retry_on_rate_limit r.1 then
    match left with
    | 0 => ⟨r.1, waits, n, calls + r.2⟩
    | l + 1 => tenacityLoop body l (n + 1) (waits ++ [wait_exponential n]) (calls + r.2)
  else ⟨r.1, waits, n, calls + r.2⟩

/-- One invocation of a function decorated with
`@retry(retry=retry_on_rate_limit, stop=stop_after_attempt(5), wait=..., reraise=True)`:
the loop starts at attempt number 1 with 4 further attempts allowed. -/
def tenacityRun (body : Nat → Except PyException String × Nat) : RunResult :=
  tenacityLoop body 4 1 [] 0

/-- A caller-supplied Python value, as far as the validation code can
distinguish it: a string, a list of strings (category labels), `None`, or an
integer standing for any other non-string, non-list object. -/
inductive PyObj where
  | pyStr (s : String)
  | pyList (l : List String)
  | pyNone
  | pyInt (n : Int)
deriving DecidableEq, Repr

/-- Python truthiness of a `PyObj` (`bool(x)`). -/
def py_truthy : PyObj → Bool
  | .pyStr s => !(s == "")
  | .pyList l => !l.isEmpty
  | .pyNone => false
  | .pyInt n => !(n == 0)

/-- Python `isinstance(x, str)`. -/
def py_is_str : PyObj → Bool
  | .pyStr _ => true
  | _ => false

/-- Python `isinstance(x, list)`. -/
def py_is_list : PyObj → Bool
  | .pyList _ => true
  | _ => false

/-- Python `len(x)` on the values on which the module evaluates it. -/
def py_len : PyObj → Nat
  | .pyStr s => s.length
  | .pyList l => l.length
  | _ => 0

/-- The underlying string of a string object (only read on the valid path). -/
def str_val : PyObj → String
  | .pyStr s => s
  | _ => ""

/-- The underlying list of a list object (only read on the valid path). -/
def list_val : PyObj → List String
  | .pyList l => l
  | _ => []

/-- The guard `not prompt or not isinstance(prompt, str)` of `generate_text`
(line 83) and `generate_code` (line 132). -/
def prompt_invalid (prompt : PyObj) : Bool :=
  !py_truthy prompt || !py_is_str prompt

/-- The guard `not text or not isinstance(text, str)` of `classify_text`
(line 197). -/
def text_invalid (text : PyObj) : Bool :=
  !py_truthy text || !py_is_str text

/-- The guard `not categories or not isinstance(categories, list) or
len(categories) == 0` of `classify_text` (line 200). -/
def categories_invalid (categories : PyObj) : Bool :=
  !py_truthy categories || !py_is_list categories || (py_len categories == 0)

/-- The model response envelope returned by `llm.invoke`: `content` is present
exactly when `hasattr(response, 'content')`, and `asString` models
`str(response)`. -/
structure LLMResponse where
  content : Option String
  asString : String
deriving DecidableEq, Repr

/-- The text-extraction step `response.content if hasattr(response, 'content')
else str(response)` (lines 100-103, 164-167, 233-236). -/
def extract_content (r : LLMResponse) : String :=
  match r.content with
  | some c => c
  | none => r.asString

/-- Outcome of one upstream `llm.invoke` call: a response object, or a raised
exception. -/
inductive UpstreamOutcome where
  | success (resp : LLMResponse)
  | failure (e : PyException)
deriving DecidableEq, Repr

/-- The `except` block of `generate_text` (lines 105-110): a rate-limit
exception is re-raised as `RateLimitError("Rate limit exceeded: " + str(e))`,
anything else as `GeminiAPIError("Gemini API error in text generation: " + str(e))`. -/
def wrap_text_exc (e : PyException) : PyException :=
  if is_rate_limit_error e then
    ⟨none, .rateLimitError, "Rate limit exceeded: " ++ e.msg⟩
  else
    ⟨none, .geminiAPIError, "Gemini API error in text generation: " ++ e.msg⟩

/-- The `except` block of `generate_code` (lines 169-174). -/
def wrap_code_exc (e : PyException) : PyException :=
  if is_rate_limit_error e then
    ⟨none, .rateLimitError, "Rate limit exceeded: " ++ e.msg⟩
  else
    ⟨none, .geminiAPIError, "Gemini API error in code generation: " ++ e.msg⟩

/-- The `except` block of `classify_text` (lines 251-256). -/
def wrap_classify_exc (e : PyException) : PyException :=
  if is_rate_limit_error e then
    ⟨none, .rateLimitError, "Rate limit exceeded: " ++ e.msg⟩
  else
    ⟨none, .geminiAPIError, "Gemini API error in text classification: " ++ e.msg⟩

/-- The `ValueError` raised by `generate_text`/`generate_code` validation. -/
def valueError_prompt : PyException :=
  ⟨none, .valueError, "Prompt must be a non-empty string"⟩

/-- The `ValueError` raised by `classify_text` text validation. -/
def valueError_text : PyException :=
  ⟨none, .valueError, "Text must be a non-empty string"⟩

/-- The `ValueError` raised by `classify_text` categories validation. -/
def valueError_categories : PyException :=
  ⟨none, .valueError, "Categories must be a non-empty list"⟩

/-- One attempt of the body of `generate_text(prompt)` (lines 69-110):
validate, then invoke the model with the prompt itself and extract the text,
wrapping any upstream exception.  The second component counts upstream calls
made by the attempt. -/
def generate_text_attempt (prompt : PyObj) (upstream : String → UpstreamOutcome) :
    Except PyException String × Nat :=
  if prompt_invalid prompt then (.error valueError_prompt, 0)
  else
    match upstream (str_val prompt) with
    | .success r => (.ok (extract_content r), 1)
    | .failure e => (.error (wrap_text_exc e), 1)

/-- `generate_text(prompt)` under its retry decorator; `upstream i m` is the
outcome the LLM client would produce on attempt `i` for outbound message `m`. -/
def generate_text_run (prompt : PyObj) (upstream : Nat → String → UpstreamOutcome) : RunResult :=
  tenacityRun (fun i => generate_text_attempt prompt (upstream i))

/-- The `enhanced_prompt` f-string of `generate_code` (lines 145-157): a fixed
code-generation framing wrapped around the caller's prompt. -/
def enhanced_prompt (prompt : String) : String :=
  "\n        Generate clean, well-commented, and functional code for the following request:\n        \n        " ++
  prompt ++
  "\n        \n        Please provide:\n        1. Working code with proper syntax\n        2. Clear variable names and structure\n        3. Brief comments where helpful\n        4. Example usage if applicable\n        \n        Code:\n        "

/-- One attempt of the body of `generate_code(prompt)` (lines 118-174): like
`generate_text`, but the outbound message is `enhanced_prompt prompt` while the
returned value is still the raw extracted text. -/
def generate_code_attempt (prompt : PyObj) (upstream : String → UpstreamOutcome) :
    Except PyException String × Nat :=
  if prompt_invalid prompt then (.error valueError_prompt, 0)
  else
    match upstream (enhanced_prompt (str_val prompt)) with
    | .success r => (.ok (extract_content r), 1)
    | .failure e => (.error (wrap_code_exc e), 1)

/-- `generate_code(prompt)` under its retry decorator. -/
def generate_code_run (prompt : PyObj) (upstream : Nat → String → UpstreamOutcome) : RunResult :=
  tenacityRun (fun i => generate_code_attempt prompt (upstream i))

/-- Python `str.strip()` whitespace test (ASCII whitespace). -/
def py_is_space (c : Char) : Bool :=
  c == ' ' || c == '\t' || c == '\n' || c == '\r' || c == Char.ofNat 11 || c == Char.ofNat 12

/-- Python `s.strip()`: drop leading and trailing whitespace. -/
def pyStrip (s : String) : String :=
  ⟨((s.data.dropWhile py_is_space).reverse.dropWhile py_is_space).reverse⟩

/-- The `classification_prompt` f-string of `classify_text` (lines 213-226),
with `categories_str = ", ".join(categories)`. -/
def classification_prompt (text : String) (categories : List String) : String :=
  let categories_str := String.intercalate ", " categories
  "\n        Please classify the following text into exactly one of these categories: " ++
  categories_str ++
  "\n        \n        Text to classify: \"" ++ text ++
  "\"\n        \n        Instructions:\n        1. Choose ONLY ONE category from the provided list\n        2. Respond with ONLY the category name, nothing else\n        3. Do not add explanations or additional text\n        4. The response must be one of: " ++
  categories_str ++ "\n        \n        Classification:\n        "

/-- The post-processing of `classify_text` (lines 232-249): strip and
lower-case the raw response, lower-case the categories, scan the lowered
categories in order for the first one occurring as a substring of the
response, and return `categories[categories_lower.index(category)]`; if none
matches, fall back to `categories[0]`.  `none` models the `IndexError` Python
would raise on `categories[0]` with an empty list (unreachable behind
validation). -/
def classify_post (raw : String) (categories : List String) : Option String :=
  let result := pyLower (pyStrip raw)
  let categories_lower := categories.map pyLower
  match categories_lower.find? (fun category => pyIn category result) with
  | some category => categories[categories_lower.indexOf category]?
  | none => categories[0]?

/-- One attempt of the body of `classify_text(text, categories)`
(lines 182-256). -/
def classify_text_attempt (text categories : PyObj) (upstream : String → UpstreamOutcome) :
    Except PyException String × Nat :=
  if text_invalid text then (.error valueError_text, 0)
  else if categories_invalid categories then (.error valueError_categories, 0)
  else
    let cats := list_val categories
    match upstream (classification_prompt (str_val text) cats) with
    | .success r =>
        match classify_post (extract_content r) cats with
        | some v => (.ok v, 1)
        | none => (.error ⟨none, .other, "list index out of range"⟩, 1)
    | .failure e => (.error (wrap_classify_exc e), 1)

/-- `classify_text(text, categories)` under its retry decorator. -/
def classify_text_run (text categories : PyObj)
    (upstream : Nat → String → UpstreamOutcome) : RunResult :=
  tenacityRun (fun i => classify_text_attempt text categories (upstream i))

/-!  Definitions taken from the WORDS OF THE SPEC (not from the source), used
only to compare the spec's description with what the source does. -/

/-- Modelled from the spec, §4.1: the rate-limit indicator phrase set the spec
prescribes for the textual fallback: `"rate limit"`, `"quota exceeded"`,
`"too many requests"`, `"429"`, `"resource exhausted"`/`"resource_exhausted"`. -/
def spec_rate_limit_phrases : List String :=
  ["rate limit", "quota exceeded", "too many requests", "429",
   "resource exhausted", "resource_exhausted"]

/-- Modelled from the spec, §4.1: "inspect the error for a structured
status/code field first (treat HTTP/gRPC status 429 as retryable); if no
structured code is present, fall back to a case-insensitive substring match of
the error's textual message" against `spec_rate_limit_phrases`. -/
def is_retryable_spec (e : PyException) : Bool :=
  match e.code with
  | some c => c == 429
  | none => spec_rate_limit_phrases.any (fun phrase => pyIn phrase (pyLower e.msg))

/-- Modelled from the spec, §4.2: the first category in list order whose
lower-casing occurs as a substring of the (already normalized) response. -/
def first_matching (result : String) : List String → Option String
  | [] => none
  | c :: cs => if pyIn (pyLower c) result then some c else first_matching result cs

/-- Modelled from the spec, §4.2: lower-case and trim the response, return the
first matching category in its original casing, else the first category. -/
def classify_post_spec (raw : String) (categories : List String) : Option String :=
  let result := pyLower (pyStrip raw)
  (first_matching result categories).orElse (fun _ => categories.head?)

/-- The backoff delays the loop sleeps when attempts `n, n+1, ..., n+k-1` all
fail retryably: `wait_exponential` evaluated at each failed attempt number. -/
def waitSeq (n k : Nat) : List Nat :=
  match k with
  | 0 => []
  | k + 1 => wait_exponential n :: waitSeq (n + 1) k

example : is_retryable_error ⟨none, .other, "HTTP 429 Too Many Requests"⟩ = true := rfl
example : is_retryable_error ⟨none, .other, "rate limit"⟩ = false := rfl
example : is_retryable_error ⟨none, .other, "resource_exhausted"⟩ = false := rfl
example : is_rate_limit_error ⟨none, .other, "Rate limit exceeded: boom"⟩ = true := rfl
example : wait_exponential 1 = 1 := rfl
example : wait_exponential 4 = 8 := rfl
example : wait_exponential 7 = 60 := rfl

example : classify_post "  Positive  " ["positive", "negative", "neutral"] = some "positive" := rfl
example : classify_post "no idea" ["A", "B"] = some "A" := rfl
example : classify_post "i think b" ["A", "B"] = some "B" := rfl
example : is_retryable_spec ⟨some 429, .other, "boom"⟩ = true := rfl
example : is_retryable_error ⟨some 429, .other, "boom"⟩ = false := rfl

/-- The loop never makes more than `left` further attempts beyond attempt `n`. -/
theorem tenacityLoop_attempts_le (body : Nat → Except PyException String × Nat) :
    ∀ (left n : Nat) (waits : List Nat) (calls : Nat),
      (tenacityLoop body left n waits calls).attempts ≤ n + left := by
  intro left
  induction left with
  | zero =>
    intro n waits calls
    rw [tenacityLoop]
    split
    · simp
    · simp
  | succ l ih =>
    intro n waits calls
    rw [tenacityLoop]
    split
    · exact le_trans (ih (n + 1) _ _) (by omega)
    · simp

/-- If attempts `n, ..., n+k-1` fail retryably and attempt `n+k` succeeds,
the loop returns the success value after exactly `k` backoff waits. -/
theorem tenacityLoop_ok (body : Nat → Except PyException String × Nat) (v : String) :
    ∀ (k left n : Nat) (waits : List Nat) (calls : Nat), k ≤ left →
      (∀ i, n ≤ i → i < n + k → retry_on_rate_limit (body i).1 = true) →
      (body (n + k)).1 = Except.ok v →
      (tenacityLoop body left n waits calls).result = Except.ok v ∧
      (tenacityLoop body left n waits calls).waits = waits ++ waitSeq n k ∧
      (tenacityLoop body left n waits calls).attempts = n + k := by
  intro k
  induction k with
  | zero =>
    intro left n waits calls _ _ hok
    simp only [Nat.add_zero] at hok
    rw [tenacityLoop.eq_def]
    simp [hok, retry_on_rate_limit, waitSeq]
  | succ k ih =>
    intro left n waits calls hle hretry hok
    have hn : retry_on_rate_limit (body n).1 = true := hretry n le_rfl (by omega)
    obtain ⟨l, rfl⟩ : ∃ l, left = l + 1 := ⟨left - 1, by omega⟩
    rw [tenacityLoop]
    simp only [hn, ite_true]
    have h := ih l (n + 1) (waits ++ [wait_exponential n]) (calls + (body n).2)
      (by omega)
      (fun i h1 h2 => hretry i (by omega) (by omega))
      (by rw [show n + 1 + k = n + (k + 1) by omega]; exact hok)
    refine ⟨h.1, ?_, ?_⟩
    · rw [h.2.1, waitSeq, List.append_assoc]
      rfl
    · rw [h.2.2]
      omega

/-- If every attempt fails retryably, the loop stops after exactly its attempt
budget and its result is the outcome of the final attempt. -/
theorem tenacityLoop_allfail (body : Nat → Except PyException String × Nat)
    (hfail : ∀ i, retry_on_rate_limit (body i).1 = true) :
    ∀ (left n : Nat) (waits : List Nat) (calls : Nat),
      (tenacityLoop body left n waits calls).result = (body (n + left)).1 ∧
      (tenacityLoop body left n waits calls).attempts = n + left := by
  intro left
  induction left with
  | zero =>
    intro n waits calls
    rw [tenacityLoop]
    simp [hfail n]
  | succ l ih =>
    intro n waits calls
    rw [tenacityLoop]
    simp only [hfail n, ite_true]
    have h := ih (n + 1) (waits ++ [wait_exponential n]) (calls + (body n).2)
    rw [show n + (l + 1) = n + 1 + l by omega]
    exact h

/-- Whatever happens, the loop's final result is the outcome of its final
attempt (never some earlier attempt's outcome), and at least one attempt is
made. -/
theorem tenacityLoop_result_eq (body : Nat → Except PyException String × Nat) :
    ∀ (left n : Nat) (waits : List Nat) (calls : Nat),
      (tenacityLoop body left n waits calls).result =
        (body ((tenacityLoop body left n waits calls).attempts)).1 ∧
      n ≤ (tenacityLoop body left n waits calls).attempts := by
  intro left
  induction left with
  | zero =>
    intro n waits calls
    rw [tenacityLoop]
    split
    · simp
    · simp
  | succ l ih =>
    intro n waits calls
    rw [tenacityLoop]
    split
    · have h := ih (n + 1) (waits ++ [wait_exponential n]) (calls + (body n).2)
      exact ⟨h.1, le_trans (by omega) h.2⟩
    · simp

/-- Substring occurrence in a lower-cased message survives arbitrary extension
of the message on both sides. -/
theorem pyIn_lower_mono (ind m p s : String)
    (h : pyIn ind (pyLower m) = true) :
    pyIn ind (pyLower (p ++ m ++ s)) = true := by
  have h' : ind.data <:+: (pyLower m).data := of_decide_eq_true h
  obtain ⟨a, b, hab⟩ := h'
  apply decide_eq_true
  refine ⟨p.data.map Char.toLower ++ a, b ++ s.data.map Char.toLower, ?_⟩
  have hd : (pyLower (p ++ m ++ s)).data =
      p.data.map Char.toLower ++ (pyLower m).data ++ s.data.map Char.toLower := by
    show (p.data ++ m.data ++ s.data).map Char.toLower = _
    simp [pyLower]
  rw [hd, ← hab]
  simp

/-- A string occurs in any string extending it on the left. -/
theorem pyIn_append_left (pre m : String) : pyIn m (pre ++ m) = true := by
  apply decide_eq_true
  exact ⟨pre.data, [], by simp⟩

/-- The `find?` over the lower-cased category list locates exactly the first
spec-sense matching category, lower-cased. -/
theorem find_lower_eq_first_matching (result : String) (cats : List String) :
    (cats.map pyLower).find? (fun category => pyIn category result) =
      (first_matching result cats).map pyLower := by
  induction cats with
  | nil => rfl
  | cons a t ih =>
    by_cases h : pyIn (pyLower a) result
    · simp [List.find?, h, first_matching]
    · simp [List.find?, h, first_matching, ih]

/-- A category returned by `first_matching` is one of the supplied categories. -/
theorem first_matching_mem (result : String) :
    ∀ (cats : List String) (r : String),
      first_matching result cats = some r → r ∈ cats := by
  intro cats
  induction cats with
  | nil => intro r h; simp [first_matching] at h
  | cons a t ih =>
    intro r h
    rw [first_matching] at h
    by_cases hm : pyIn (pyLower a) result
    · rw [if_pos hm] at h
      simp at h
      simp [h]
    · rw [if_neg hm] at h
      exact List.mem_cons_of_mem a (ih r h)

/-- List-level core of the post-processing: the `find?`-then-`index` scan of
the source equals the spec's first-match-else-first-category description. -/
theorem classify_scan_eq (result : String) (cats : List String) :
    (match (cats.map pyLower).find? (fun category => pyIn category result) with
     | some category => cats[(cats.map pyLower).indexOf category]?
     | none => cats[0]?) =
    (first_matching result cats).orElse (fun _ => cats.head?) := by
  induction cats with
  | nil => rfl
  | cons a t ih =>
    by_cases h : pyIn (pyLower a) result
    · simp only [List.map_cons, List.find?, h, first_matching, if_pos h]
      simp [List.indexOf, List.findIdx_cons, Option.orElse]
    · simp only [List.map_cons, List.find?, h, first_matching, if_neg h]
      cases hf : (t.map pyLower).find? (fun category => pyIn category result) with
      | none =>
        have hnone : first_matching result t = none := by
          have hb := find_lower_eq_first_matching result t
          rw [hf] at hb
          exact (Option.map_eq_none'.mp hb.symm)
        simp [hnone, Option.orElse]
      | some c =>
        have hc : pyIn c result = true := by simpa using List.find?_some hf
        obtain ⟨r, hr, hrc⟩ : ∃ r, first_matching result t = some r ∧ pyLower r = c := by
          have hb := find_lower_eq_first_matching result t
          rw [hf] at hb
          cases hfm : first_matching result t with
          | none => rw [hfm] at hb; simp at hb
          | some r => rw [hfm] at hb; simp at hb; exact ⟨r, rfl, hb.symm⟩
        have hne : (pyLower a == c) = false := by
          apply beq_eq_false_iff_ne.mpr
          intro hEq
          rw [← hEq] at hc
          exact h hc
        rw [hf, hr] at ih
        rw [hr]
        simp only [List.indexOf, List.findIdx_cons, hne, cond_false]
        simp only [List.indexOf] at ih
        simp only [List.getElem?_cons_succ]
        simpa [Option.orElse] using ih

/-- The source's post-processing (`find?` over the lowered list followed by
`categories_lower.index`) agrees with the spec's description of it
(first matching category in original casing, else the first category). -/
theorem classify_post_eq_spec (raw : String) (cats : List String) :
    classify_post raw cats = classify_post_spec raw cats := by
  unfold classify_post classify_post_spec
  exact classify_scan_eq (pyLower (pyStrip raw)) cats

/-- Behind the non-empty-categories validation, the post-processing always
returns one of the supplied categories. -/
theorem classify_post_mem (raw : String) (cats : List String) (h : cats ≠ []) :
    ∃ r, classify_post raw cats = some r ∧ r ∈ cats := by
  rw [classify_post_eq_spec]
  unfold classify_post_spec
  cases hf : first_matching (pyLower (pyStrip raw)) cats with
  | none =>
    refine ⟨cats.head h, ?_, List.head_mem h⟩
    simp [Option.orElse, hf, List.head?_eq_head h]
  | some r =>
    refine ⟨r, ?_, first_matching_mem _ cats r hf⟩
    simp [Option.orElse, hf]

/-- A needle occurs in any string sandwiching it. -/
theorem pyIn_sandwich (p m s : String) : pyIn m (p ++ m ++ s) = true := by
  apply decide_eq_true
  exact ⟨p.data, s.data, rfl⟩

/-- Sandwiching with a non-trivial left part changes the string. -/
theorem append_sandwich_ne (p m s : String) (hp : p.length ≠ 0) : p ++ m ++ s ≠ m := by
  intro h
  have hlen := congrArg String.length h
  rw [String.length_append, String.length_append] at hlen
  omega

/-- If the first attempt's outcome is a non-retryable error, the run stops
immediately: that error is raised, after one attempt and no backoff wait. -/
theorem tenacityRun_fatal_first (body : Nat → Except PyException String × Nat)
    (e : PyException) (hbody : (body 1).1 = Except.error e)
    (hre : is_retryable_error e = false) :
    (tenacityRun body).result = Except.error e ∧
    (tenacityRun body).waits = [] ∧
    (tenacityRun body).attempts = 1 ∧
    (tenacityRun body).upstreamCalls = (body 1).2 := by
  rw [tenacityRun, tenacityLoop.eq_def]
  simp [hbody, retry_on_rate_limit, hre]

/-- If the first attempt succeeds, the run returns its value immediately. -/
theorem tenacityRun_first_ok (body : Nat → Except PyException String × Nat)
    (v : String) (hbody : (body 1).1 = Except.ok v) :
    (tenacityRun body).result = Except.ok v ∧
    (tenacityRun body).waits = [] ∧
    (tenacityRun body).attempts = 1 ∧
    (tenacityRun body).upstreamCalls = (body 1).2 := by
  rw [tenacityRun, tenacityLoop.eq_def]
  simp [hbody, retry_on_rate_limit]

/-- The wrapped exception of `generate_text` contains the underlying message
and is one of the two custom exception classes. -/
theorem wrap_text_exc_spec (e : PyException) :
    pyIn e.msg (wrap_text_exc e).msg = true ∧
    ((wrap_text_exc e).kind = ExcKind.rateLimitError ∨
     (wrap_text_exc e).kind = ExcKind.geminiAPIError) := by
  unfold wrap_text_exc
  by_cases h : is_rate_limit_error e
  · rw [if_pos h]
    exact ⟨pyIn_append_left _ _, Or.inl rfl⟩
  · rw [if_neg h]
    exact ⟨pyIn_append_left _ _, Or.inr rfl⟩

/-- The wrapped exception of `classify_text` contains the underlying message
and is one of the two custom exception classes. -/
theorem wrap_classify_exc_spec (e : PyException) :
    pyIn e.msg (wrap_classify_exc e).msg = true ∧
    ((wrap_classify_exc e).kind = ExcKind.rateLimitError ∨
     (wrap_classify_exc e).kind = ExcKind.geminiAPIError) := by
  unfold wrap_classify_exc
  by_cases h : is_rate_limit_error e
  · rw [if_pos h]
    exact ⟨pyIn_append_left _ _, Or.inl rfl⟩
  · rw [if_neg h]
    exact ⟨pyIn_append_left _ _, Or.inr rfl⟩

/-- A failed attempt of `generate_text` on a valid prompt comes from an
upstream failure, wrapped. -/
theorem generate_text_attempt_error (s : String) (hs : s ≠ "")
    (up : String → UpstreamOutcome) (ex : PyException)
    (h : (generate_text_attempt (.pyStr s) up).1 = Except.error ex) :
    ∃ e, up s = .failure e ∧ ex = wrap_text_exc e := by
  have hv : prompt_invalid (.pyStr s) = false := by
    simp [prompt_invalid, py_truthy, py_is_str, hs]
  unfold generate_text_attempt at h
  rw [hv] at h
  simp only [Bool.false_eq_true, if_false] at h
  cases hu : up (str_val (.pyStr s)) with
  | success r => rw [hu] at h; simp at h
  | failure e =>
    rw [hu] at h
    simp only [Except.error.injEq] at h
    exact ⟨e, hu, h.symm⟩

/-- A failed attempt of `classify_text` on valid inputs comes from an
upstream failure, wrapped. -/
theorem classify_text_attempt_error (t : String) (ht : t ≠ "")
    (cs : List String) (hcs : cs ≠ [])
    (up : String → UpstreamOutcome) (ex : PyException)
    (h : (classify_text_attempt (.pyStr t) (.pyList cs) up).1 = Except.error ex) :
    ∃ e, up (classification_prompt t cs) = .failure e ∧ ex = wrap_classify_exc e := by
  have hv : text_invalid (.pyStr t) = false := by
    simp [text_invalid, py_truthy, py_is_str, ht]
  have hv2 : categories_invalid (.pyList cs) = false := by
    simp [categories_invalid, py_truthy, py_is_list, py_len, hcs, List.isEmpty_iff]
  unfold classify_text_attempt at h
  rw [hv, hv2] at h
  simp only [Bool.false_eq_true, if_false] at h
  cases hu : up (classification_prompt (str_val (.pyStr t)) (list_val (.pyList cs))) with
  | success r =>
    rw [hu] at h
    dsimp only at h
    obtain ⟨v, hvv, _⟩ := classify_post_mem (extract_content r) (list_val (.pyList cs)) hcs
    rw [hvv] at h
    simp at h
  | failure e =>
    rw [hu] at h
    simp only [Except.error.injEq] at h
    exact ⟨e, hu, h.symm⟩

/-- C1 (counterexample): the claim says a message containing `"rate limit"`
(or `"resource_exhausted"`) case-insensitively is classified retryable; the
code's indicator list only contains `"rate limit exceeded"` (and no
underscore variant of `resource exhausted`), so the message `"rate limit"`
satisfies the claim's premise yet `is_retryable_error` rejects it, and
likewise `"resource_exhausted"`. -/
theorem claim_C1_counterexample :
    pyIn "rate limit" (pyLower "rate limit") = true ∧
    is_retryable_error ⟨none, ExcKind.other, "rate limit"⟩ = false ∧
    pyIn "resource_exhausted" (pyLower "resource_exhausted") = true ∧
    is_retryable_error ⟨none, ExcKind.other, "resource_exhausted"⟩ = false := by
  refine ⟨rfl, rfl, rfl, rfl⟩

/-- C1 (amended): for every exception whose textual message contains,
case-insensitively, any of `"rate limit exceeded"`, `"quota exceeded"`,
`"too many requests"`, `"429"`, or `"resource exhausted"` (space-separated),
`is_retryable_error` classifies the exception as retryable. -/
theorem claim_C1_rate_limit_indicators_retryable (e : PyException)
    (h : pyIn "rate limit exceeded" (pyLower e.msg) = true ∨
         pyIn "quota exceeded" (pyLower e.msg) = true ∨
         pyIn "too many requests" (pyLower e.msg) = true ∨
         pyIn "429" (pyLower e.msg) = true ∨
         pyIn "resource exhausted" (pyLower e.msg) = true) :
    is_retryable_error e = true := by
  simp only [is_retryable_error, retryable_indicators, List.any_cons, List.any_nil,
    Bool.or_eq_true]
  tauto

/-- C1 witness: a concrete exception satisfying the amended premise. -/
theorem claim_C1_witness :
    pyIn "429" (pyLower "HTTP Error 429") = true ∧
    is_retryable_error ⟨none, ExcKind.other, "HTTP Error 429"⟩ = true :=
  ⟨rfl, claim_C1_rate_limit_indicators_retryable ⟨none, ExcKind.other, "HTTP Error 429"⟩
    (Or.inr (Or.inr (Or.inr (Or.inl rfl))))⟩

/-- C2 (counterexample): the claim says the classifier inspects a structured
status/code field first and treats status 429 as retryable even when the
message has no indicator phrase.  The code's classifiers only ever look at
`str(exception)`: an exception carrying structured status 429 with message
`"boom"` is classified non-retryable (while the spec's described algorithm,
`is_retryable_spec`, would retry it). -/
theorem claim_C2_counterexample :
    is_retryable_error ⟨some 429, ExcKind.other, "boom"⟩ = false ∧
    is_rate_limit_error ⟨some 429, ExcKind.other, "boom"⟩ = false ∧
    is_retryable_spec ⟨some 429, ExcKind.other, "boom"⟩ = true := by
  refine ⟨rfl, rfl, rfl⟩

/-- C2 (amended): error classification never inspects a structured
status/code field; both classifiers are functions of the textual message
alone, so two exceptions with the same message but different (or missing)
status codes are classified identically. -/
theorem claim_C2_message_only (c₁ c₂ : Option Nat) (k₁ k₂ : ExcKind) (m : String) :
    is_retryable_error ⟨c₁, k₁, m⟩ = is_retryable_error ⟨c₂, k₂, m⟩ ∧
    is_rate_limit_error ⟨c₁, k₁, m⟩ = is_rate_limit_error ⟨c₂, k₂, m⟩ :=
  ⟨rfl, rfl⟩

/-- C10: retryable classification is monotone under message extension, and
every `RateLimitError` raised by an invoker (message prefixed with
`"Rate limit exceeded: "`) is itself classified retryable, whatever the
underlying message. -/
theorem claim_C10_monotone (e : PyException) (p s m : String)
    (c : Option Nat) (k : ExcKind)
    (h : is_retryable_error e = true) :
    is_retryable_error ⟨c, k, p ++ e.msg ++ s⟩ = true ∧
    is_retryable_error ⟨none, ExcKind.rateLimitError, "Rate limit exceeded: " ++ m⟩ = true := by
  constructor
  · have hany := List.any_eq_true.mp (by simpa [is_retryable_error] using h)
    obtain ⟨ind, hind, hin⟩ := hany
    have hmono : pyIn ind (pyLower (p ++ e.msg ++ s)) = true :=
      pyIn_lower_mono ind e.msg p s (by simpa using hin)
    simp only [is_retryable_error]
    exact List.any_eq_true.mpr ⟨ind, hind, by simpa using hmono⟩
  · have hpre : pyIn "rate limit exceeded" (pyLower ("Rate limit exceeded: " ++ m)) = true := by
      apply decide_eq_true
      refine ⟨[], ": ".data ++ m.data.map Char.toLower, ?_⟩
      show [] ++ "rate limit exceeded".data ++ (": ".data ++ m.data.map Char.toLower) =
        ("Rate limit exceeded: " ++ m).data.map Char.toLower
      have hmap : ("Rate limit exceeded: " ++ m).data.map Char.toLower =
          "Rate limit exceeded: ".data.map Char.toLower ++ m.data.map Char.toLower := by
        show ("Rate limit exceeded: ".data ++ m.data).map Char.toLower = _
        simp
      rw [hmap]
      have hlit : "Rate limit exceeded: ".data.map Char.toLower =
          "rate limit exceeded".data ++ ": ".data := by decide
      rw [hlit]
      simp
    simp only [is_retryable_error]
    apply List.any_eq_true.mpr
    refine ⟨"rate limit exceeded", by simp [retryable_indicators], by simpa using hpre⟩

/-- C10 witness: concrete instances of both conclusions. -/
theorem claim_C10_witness :
    is_retryable_error ⟨some 7, ExcKind.other, "x" ++ "timeout" ++ "y"⟩ = true ∧
    is_retryable_error ⟨none, ExcKind.rateLimitError, "Rate limit exceeded: hard fail"⟩ = true := by
  have h := claim_C10_monotone ⟨none, ExcKind.other, "timeout"⟩ "x" "y" "hard fail"
    (some 7) ExcKind.other rfl
  exact ⟨h.1, h.2⟩

/-- C3: if attempts `1..k` (`k < 5`) fail with retryable errors and attempt
`k+1` succeeds, the run returns the success value after exactly `k` backoff
waits whose delays are the first `k` entries of `1, 2, 4, 8, 16`. -/
theorem claim_C3_backoff (k : Nat) (hk : k < 5)
    (body : Nat → Except PyException String × Nat) (v : String)
    (hfail : ∀ i, 1 ≤ i → i ≤ k →
      ∃ e, (body i).1 = Except.error e ∧ is_retryable_error e = true)
    (hok : (body (k + 1)).1 = Except.ok v) :
    (tenacityRun body).result = Except.ok v ∧
    (tenacityRun body).waits = List.take k [1, 2, 4, 8, 16] ∧
    (tenacityRun body).waits.length = k := by
  have h := tenacityLoop_ok body v k 4 1 [] 0 (by omega)
    (fun i h1 h2 => by
      obtain ⟨e, he, hre⟩ := hfail i h1 (by omega)
      rw [he]
      simpa [retry_on_rate_limit] using hre)
    (by rw [Nat.add_comm 1 k]; exact hok)
  rw [tenacityRun]
  refine ⟨h.1, ?_, ?_⟩
  · rw [h.2.1]
    interval_cases k <;> rfl
  · rw [h.2.1]
    interval_cases k <;> rfl

/-- C3 witness: two retryable failures then success, giving waits `[1, 2]`. -/
theorem claim_C3_witness :
    (tenacityRun (fun i => if i ≤ 2 then
        (Except.error ⟨none, ExcKind.other, "429"⟩, 1)
      else (Except.ok "done", 1))).result = Except.ok "done" ∧
    (tenacityRun (fun i => if i ≤ 2 then
        (Except.error ⟨none, ExcKind.other, "429"⟩, 1)
      else (Except.ok "done", 1))).waits = List.take 2 [1, 2, 4, 8, 16] ∧
    (tenacityRun (fun i => if i ≤ 2 then
        (Except.error ⟨none, ExcKind.other, "429"⟩, 1)
      else (Except.ok "done", 1))).waits.length = 2 :=
  claim_C3_backoff 2 (by omega) _ "done"
    (fun i h1 h2 => ⟨⟨none, ExcKind.other, "429"⟩,
      by interval_cases i <;> exact ⟨rfl, rfl⟩⟩)
    rfl

/-- C4: at most 5 attempts are ever made; and for an operation failing with a
retryable error on every attempt, exactly 5 attempts are made and the fifth
attempt's own error is raised (the final failure is never swallowed). -/
theorem claim_C4_attempt_cap (body : Nat → Except PyException String × Nat)
    (hfail : ∀ i, ∃ e, (body i).1 = Except.error e ∧ is_retryable_error e = true) :
    (∀ b : Nat → Except PyException String × Nat, (tenacityRun b).attempts ≤ 5) ∧
    (tenacityRun body).attempts = 5 ∧
    (tenacityRun body).result = (body 5).1 ∧
    ∃ e, (tenacityRun body).result = Except.error e := by
  have hf : ∀ i, retry_on_rate_limit (body i).1 = true := fun i => by
    obtain ⟨e, he, hre⟩ := hfail i
    rw [he]
    simpa [retry_on_rate_limit] using hre
  have h := tenacityLoop_allfail body hf 4 1 [] 0
  refine ⟨fun b => ?_, by simpa using h.2, by simpa using h.1, ?_⟩
  · have := tenacityLoop_attempts_le b 4 1 [] 0
    simpa [tenacityRun] using this
  · obtain ⟨e, he, _⟩ := hfail 5
    refine ⟨e, ?_⟩
    rw [show (5 : Nat) = 1 + 4 by omega] at he
    rw [tenacityRun, h.1, he]

/-- C4 witness: an operation that always fails with a quota error. -/
theorem claim_C4_witness :
    (tenacityRun (fun _ => (Except.error ⟨none, ExcKind.other, "quota exceeded"⟩, 1))).attempts = 5 ∧
    (tenacityRun (fun _ => (Except.error ⟨none, ExcKind.other, "quota exceeded"⟩, 1))).result =
      Except.error ⟨none, ExcKind.other, "quota exceeded"⟩ := by
  have h := claim_C4_attempt_cap (fun _ => (Except.error ⟨none, ExcKind.other, "quota exceeded"⟩, 1))
    (fun i => ⟨⟨none, ExcKind.other, "quota exceeded"⟩, rfl, rfl⟩)
  exact ⟨h.2.1, h.2.2.1⟩

/-- C5: an exception whose message contains none of the retryable indicator
substrings and which carries no 429/5xx structured status is classified
fatal, and an operation raising it on the first attempt is propagated
immediately: one attempt, no backoff wait, no retry. -/
theorem claim_C5_fatal_immediate (e : PyException)
    (hmsg : ∀ ind ∈ retryable_indicators, pyIn ind (pyLower e.msg) = false)
    (_hcode : ∀ st, e.code = some st → ¬(st = 429 ∨ (500 ≤ st ∧ st ≤ 599)))
    (body : Nat → Except PyException String × Nat)
    (hbody : (body 1).1 = Except.error e) :
    is_retryable_error e = false ∧
    (tenacityRun body).result = Except.error e ∧
    (tenacityRun body).waits = [] ∧
    (tenacityRun body).attempts = 1 := by
  have hre : is_retryable_error e = false := by
    simp only [is_retryable_error, List.any_eq_false]
    intro ind hind
    simp [hmsg ind hind]
  have h := tenacityRun_fatal_first body e hbody hre
  exact ⟨hre, h.1, h.2.1, h.2.2.1⟩

/-- C5 witness: a plain authentication failure is fatal and never retried. -/
theorem claim_C5_witness :
    is_retryable_error ⟨none, ExcKind.other, "invalid api key"⟩ = false ∧
    (tenacityRun (fun _ => (Except.error ⟨none, ExcKind.other, "invalid api key"⟩, 1))).result =
      Except.error ⟨none, ExcKind.other, "invalid api key"⟩ ∧
    (tenacityRun (fun _ => (Except.error ⟨none, ExcKind.other, "invalid api key"⟩, 1))).waits = [] ∧
    (tenacityRun (fun _ => (Except.error ⟨none, ExcKind.other, "invalid api key"⟩, 1))).attempts = 1 :=
  claim_C5_fatal_immediate ⟨none, ExcKind.other, "invalid api key"⟩
    (by decide)
    (fun st hst => by simp at hst)
    _ rfl

/-- C6: whenever a run of `generate_text` or `classify_text` (on valid
inputs) gives up with an error, the raised exception is exactly the
final attempt's own wrapped error — a `RateLimitError` or `GeminiAPIError`
carrying the last underlying upstream error's message as a substring. -/
theorem claim_C6_final_error (s : String) (hs : s ≠ "")
    (u : Nat → String → UpstreamOutcome) (ex : PyException)
    (hres : (generate_text_run (.pyStr s) u).result = Except.error ex)
    (t : String) (ht : t ≠ "") (cs : List String) (hcs : cs ≠ [])
    (u2 : Nat → String → UpstreamOutcome) (ex2 : PyException)
    (hres2 : (classify_text_run (.pyStr t) (.pyList cs) u2).result = Except.error ex2) :
    (∃ e, u ((generate_text_run (.pyStr s) u).attempts) s = .failure e ∧
      ex = wrap_text_exc e ∧ pyIn e.msg ex.msg = true ∧
      (ex.kind = ExcKind.rateLimitError ∨ ex.kind = ExcKind.geminiAPIError)) ∧
    (∃ e, u2 ((classify_text_run (.pyStr t) (.pyList cs) u2).attempts)
        (classification_prompt t cs) = .failure e ∧
      ex2 = wrap_classify_exc e ∧ pyIn e.msg ex2.msg = true ∧
      (ex2.kind = ExcKind.rateLimitError ∨ ex2.kind = ExcKind.geminiAPIError)) := by
  constructor
  · have hr := tenacityLoop_result_eq (fun i => generate_text_attempt (.pyStr s) (u i)) 4 1 [] 0
    rw [generate_text_run, tenacityRun] at hres
    rw [hres] at hr
    obtain ⟨e, hu, hex⟩ := generate_text_attempt_error s hs _ ex hr.1.symm
    refine ⟨e, hu, hex, ?_, ?_⟩
    · rw [hex]; exact (wrap_text_exc_spec e).1
    · rw [hex]; exact (wrap_text_exc_spec e).2
  · have hr := tenacityLoop_result_eq
      (fun i => classify_text_attempt (.pyStr t) (.pyList cs) (u2 i)) 4 1 [] 0
    rw [classify_text_run, tenacityRun] at hres2
    rw [hres2] at hr
    obtain ⟨e, hu, hex⟩ := classify_text_attempt_error t ht cs hcs _ ex2 hr.1.symm
    refine ⟨e, hu, hex, ?_, ?_⟩
    · rw [hex]; exact (wrap_classify_exc_spec e).1
    · rw [hex]; exact (wrap_classify_exc_spec e).2

/-- C6 witness: concrete fatal runs of both invokers. -/
theorem claim_C6_witness :
    (∃ e, (fun (_ : Nat) (_ : String) => UpstreamOutcome.failure ⟨none, ExcKind.other, "boom"⟩)
        ((generate_text_run (.pyStr "hi")
          (fun _ _ => UpstreamOutcome.failure ⟨none, ExcKind.other, "boom"⟩)).attempts) "hi" =
        .failure e ∧
      (⟨none, ExcKind.geminiAPIError, "Gemini API error in text generation: boom"⟩ : PyException) =
        wrap_text_exc e ∧
      pyIn e.msg "Gemini API error in text generation: boom" = true ∧
      ((ExcKind.geminiAPIError = ExcKind.rateLimitError) ∨
       (ExcKind.geminiAPIError = ExcKind.geminiAPIError))) ∧
    (∃ e, (fun (_ : Nat) (_ : String) => UpstreamOutcome.failure ⟨none, ExcKind.other, "oops"⟩)
        ((classify_text_run (.pyStr "t") (.pyList ["a", "b"])
          (fun _ _ => UpstreamOutcome.failure ⟨none, ExcKind.other, "oops"⟩)).attempts)
        (classification_prompt "t" ["a", "b"]) = .failure e ∧
      (⟨none, ExcKind.geminiAPIError, "Gemini API error in text classification: oops"⟩ : PyException) =
        wrap_classify_exc e ∧
      pyIn e.msg "Gemini API error in text classification: oops" = true ∧
      ((ExcKind.geminiAPIError = ExcKind.rateLimitError) ∨
       (ExcKind.geminiAPIError = ExcKind.geminiAPIError))) :=
  claim_C6_final_error "hi" (by decide)
    (fun _ _ => UpstreamOutcome.failure ⟨none, ExcKind.other, "boom"⟩)
    ⟨none, ExcKind.geminiAPIError, "Gemini API error in text generation: boom"⟩
    rfl
    "t" (by decide) ["a", "b"] (by decide)
    (fun _ _ => UpstreamOutcome.failure ⟨none, ExcKind.other, "oops"⟩)
    ⟨none, ExcKind.geminiAPIError, "Gemini API error in text classification: oops"⟩
    rfl

/-- C7: invalid input — an untruthy or non-string prompt for
`generate_text`/`generate_code`, an untruthy or non-string text, or an
untruthy/non-list/empty categories value for `classify_text` — raises a
validation error immediately: one attempt, zero upstream calls, zero backoff
waits, no retry. -/
theorem claim_C7_validation (p : PyObj) (hp : prompt_invalid p = true)
    (t c : PyObj) (htc : text_invalid t = true ∨ categories_invalid c = true)
    (u : Nat → String → UpstreamOutcome) :
    (generate_text_run p u).result = Except.error valueError_prompt ∧
    (generate_text_run p u).upstreamCalls = 0 ∧
    (generate_text_run p u).waits = [] ∧
    (generate_text_run p u).attempts = 1 ∧
    (generate_code_run p u).result = Except.error valueError_prompt ∧
    (generate_code_run p u).upstreamCalls = 0 ∧
    (generate_code_run p u).waits = [] ∧
    (generate_code_run p u).attempts = 1 ∧
    (∃ e, (classify_text_run t c u).result = Except.error e ∧
      e.kind = ExcKind.valueError) ∧
    (classify_text_run t c u).upstreamCalls = 0 ∧
    (classify_text_run t c u).waits = [] ∧
    (classify_text_run t c u).attempts = 1 := by
  have htext : (generate_text_attempt p (u 1)) = (Except.error valueError_prompt, 0) := by
    unfold generate_text_attempt
    rw [if_pos hp]
  have hcode : (generate_code_attempt p (u 1)) = (Except.error valueError_prompt, 0) := by
    unfold generate_code_attempt
    rw [if_pos hp]
  have hnp : is_retryable_error valueError_prompt = false := by decide
  have h1 := tenacityRun_fatal_first (fun i => generate_text_attempt p (u i))
    valueError_prompt
    (by show (generate_text_attempt p (u 1)).1 = _; rw [htext]) hnp
  have h2 := tenacityRun_fatal_first (fun i => generate_code_attempt p (u i))
    valueError_prompt
    (by show (generate_code_attempt p (u 1)).1 = _; rw [hcode]) hnp
  have hcl : ∃ e, classify_text_attempt t c (u 1) = (Except.error e, 0) ∧
      e.kind = ExcKind.valueError ∧ is_retryable_error e = false := by
    by_cases ht : text_invalid t = true
    · refine ⟨valueError_text, ?_, rfl, by decide⟩
      unfold classify_text_attempt
      rw [if_pos ht]
    · rcases htc with h | h
      · exact absurd h ht
      · refine ⟨valueError_categories, ?_, rfl, by decide⟩
        unfold classify_text_attempt
        rw [if_neg ht, if_pos h]
  obtain ⟨e, hatt, hkind, hnre⟩ := hcl
  have h3 := tenacityRun_fatal_first (fun i => classify_text_attempt t c (u i))
    e (by show (classify_text_attempt t c (u 1)).1 = _; rw [hatt]) hnre
  refine ⟨h1.1, ?_, h1.2.1, h1.2.2.1,
         h2.1, ?_, h2.2.1, h2.2.2.1,
         ⟨e, h3.1, hkind⟩, ?_, h3.2.1, h3.2.2.1⟩
  · rw [generate_text_run, h1.2.2.2]
    show (generate_text_attempt p (u 1)).2 = 0
    rw [htext]
  · rw [generate_code_run, h2.2.2.2]
    show (generate_code_attempt p (u 1)).2 = 0
    rw [hcode]
  · rw [classify_text_run, h3.2.2.2]
    show (classify_text_attempt t c (u 1)).2 = 0
    rw [hatt]

/-- C7 witness: empty-string prompt, `None` text, empty categories list. -/
theorem claim_C7_witness :
    (generate_text_run (.pyStr "") (fun _ _ => .success ⟨some "x", "x"⟩)).result =
      Except.error valueError_prompt ∧
    (generate_text_run (.pyStr "") (fun _ _ => .success ⟨some "x", "x"⟩)).upstreamCalls = 0 ∧
    (generate_code_run (.pyStr "") (fun _ _ => .success ⟨some "x", "x"⟩)).attempts = 1 ∧
    (∃ e, (classify_text_run .pyNone (.pyList [])
        (fun _ _ => .success ⟨some "x", "x"⟩)).result = Except.error e ∧
      e.kind = ExcKind.valueError) ∧
    (classify_text_run .pyNone (.pyList [])
        (fun _ _ => .success ⟨some "x", "x"⟩)).upstreamCalls = 0 := by
  have h := claim_C7_validation (.pyStr "") rfl .pyNone (.pyList [])
    (Or.inl rfl) (fun _ _ => .success ⟨some "x", "x"⟩)
  exact ⟨h.1, h.2.1, h.2.2.2.2.2.2.2.1, h.2.2.2.2.2.2.2.2.1, h.2.2.2.2.2.2.2.2.2.1⟩

/-- C8: `classify_text` post-processing equals the spec's description — the
response is trimmed and lower-cased, the first category in list order whose
lower-casing occurs in it is returned in original casing, else the first
category — and in particular, for a non-empty category list, the returned
value is always an element of the supplied list. -/
theorem claim_C8_post_processing (raw : String) (cats : List String) (h : cats ≠ []) :
    classify_post raw cats = classify_post_spec raw cats ∧
    ∃ r, classify_post raw cats = some r ∧ r ∈ cats :=
  ⟨classify_post_eq_spec raw cats, classify_post_mem raw cats h⟩

/-- C8 witness: the spec's own example — stub response `"Positive"` against
categories `["positive", "negative", "neutral"]` yields `"positive"`. -/
theorem claim_C8_witness :
    classify_post "Positive" ["positive", "negative", "neutral"] =
      classify_post_spec "Positive" ["positive", "negative", "neutral"] ∧
    ∃ r, classify_post "Positive" ["positive", "negative", "neutral"] = some r ∧
      r ∈ ["positive", "negative", "neutral"] :=
  claim_C8_post_processing "Positive" ["positive", "negative", "neutral"] (by decide)

/-- Substring occurrence survives appending on the right. -/
theorem pyIn_append_ext (needle hay ext : String) (h : pyIn needle hay = true) :
    pyIn needle (hay ++ ext) = true := by
  obtain ⟨a, b, hab⟩ := of_decide_eq_true h
  apply decide_eq_true
  refine ⟨a, b ++ ext.data, ?_⟩
  show a ++ needle.data ++ (b ++ ext.data) = hay.data ++ ext.data
  rw [← hab]
  simp

/-- C9: `generate_code` returns the upstream response's raw extracted text
unchanged, for every response; the fixed code-generation framing is applied
only to the outbound prompt (which contains the framing text and the caller's
prompt, and differs from the raw prompt), never to the returned value. -/
theorem claim_C9_raw_return (s : String) (hs : s ≠ "")
    (resp : LLMResponse) (r : String) (hr : resp.content = some r)
    (u : Nat → String → UpstreamOutcome)
    (hu : u 1 (enhanced_prompt s) = .success resp) :
    (generate_code_run (.pyStr s) u).result = Except.ok (extract_content resp) ∧
    (generate_code_run (.pyStr s) u).result = Except.ok r ∧
    (generate_code_run (.pyStr s) u).attempts = 1 ∧
    (generate_code_run (.pyStr s) u).waits = [] ∧
    pyIn s (enhanced_prompt s) = true ∧
    pyIn "Generate clean, well-commented, and functional code" (enhanced_prompt s) = true ∧
    enhanced_prompt s ≠ s := by
  have hv : prompt_invalid (.pyStr s) = false := by
    simp [prompt_invalid, py_truthy, py_is_str, hs]
  have hatt : (generate_code_attempt (.pyStr s) (u 1)).1 = Except.ok (extract_content resp) := by
    unfold generate_code_attempt
    rw [hv]
    simp only [Bool.false_eq_true, if_false]
    show (match u 1 (enhanced_prompt s) with
      | .success r => (Except.ok (extract_content r), 1)
      | .failure e => (Except.error (wrap_code_exc e), 1)).1 = _
    rw [hu]
  have h := tenacityRun_first_ok (fun i => generate_code_attempt (.pyStr s) (u i))
    (extract_content resp)
    (by show (generate_code_attempt (.pyStr s) (u 1)).1 = _; exact hatt)
  refine ⟨h.1, ?_, h.2.2.1, h.2.1, ?_, ?_, ?_⟩
  · rw [generate_code_run, h.1]
    simp [extract_content, hr]
  · show pyIn s ("\n        Generate clean, well-commented, and functional code for the following request:\n        \n        " ++ s ++ "\n        \n        Please provide:\n        1. Working code with proper syntax\n        2. Clear variable names and structure\n        3. Brief comments where helpful\n        4. Example usage if applicable\n        \n        Code:\n        ") = true
    exact pyIn_sandwich _ s _
  · have h0 : pyIn "Generate clean, well-commented, and functional code"
        "\n        Generate clean, well-commented, and functional code for the following request:\n        \n        " = true := by decide
    have h1' := pyIn_append_ext _ _ s h0
    have h2' := pyIn_append_ext _ _
      "\n        \n        Please provide:\n        1. Working code with proper syntax\n        2. Clear variable names and structure\n        3. Brief comments where helpful\n        4. Example usage if applicable\n        \n        Code:\n        " h1'
    exact h2'
  · show ("\n        Generate clean, well-commented, and functional code for the following request:\n        \n        " ++ s ++ "\n        \n        Please provide:\n        1. Working code with proper syntax\n        2. Clear variable names and structure\n        3. Brief comments where helpful\n        4. Example usage if applicable\n        \n        Code:\n        ") ≠ s
    exact append_sandwich_ne _ s _ (by decide)

/-- C9 witness: a stub upstream returning `"RAW CODE"` is passed through
unchanged while the outbound prompt is augmented. -/
theorem claim_C9_witness :
    (generate_code_run (.pyStr "add two numbers")
      (fun _ _ => .success ⟨some "RAW CODE", "obj"⟩)).result = Except.ok "RAW CODE" ∧
    (generate_code_run (.pyStr "add two numbers")
      (fun _ _ => .success ⟨some "RAW CODE", "obj"⟩)).attempts = 1 ∧
    pyIn "add two numbers" (enhanced_prompt "add two numbers") = true ∧
    enhanced_prompt "add two numbers" ≠ "add two numbers" := by
  have h := claim_C9_raw_return "add two numbers" (by decide) ⟨some "RAW CODE", "obj"⟩
    "RAW CODE" rfl (fun _ _ => .success ⟨some "RAW CODE", "obj"⟩) rfl
  exact ⟨h.2.1, h.2.2.1, h.2.2.2.2.1, h.2.2.2.2.2.2⟩
